import Mathlib

/-!
Verification development for the News_Translator repository (src/app.py).

The program is a batch pipeline: uploaded newspaper images are decoded,
sent to a recognition oracle that returns a JSON text, the JSON is parsed,
its `sections` list is partitioned into news and image sections, each
section may be cropped out of the page image from a relative `box_2d`,
and results are rendered per document with a progress bar.

Shallow embedding conventions:
* JSON values produced by `json.loads` are modelled by `JVal`.  JSON
  booleans are modelled as the numbers 0 and 1 (in Python, `bool` is a
  subclass of `int`, so truthiness and arithmetic agree with this model).
* Python floats are modelled by exact rationals `ℚ`.
* A PIL image is modelled by its size and an abstract pixel grid.
* `json.loads` itself (standard library) is modelled by pairing the raw
  oracle text with its parse result (`none` = `json.JSONDecodeError`).
-/

/-- A JSON value as produced by `json.loads` in `app.py`. -/
inductive JVal where
  | jnull : JVal
  | jnum (q : ℚ) : JVal
  | jstr (s : String) : JVal
  | jlist (elems : List JVal) : JVal
  | jobj (fields : List (String × JVal)) : JVal

/-- Python truthiness (`if not box_2d`) of a JSON value: `None`, `0`,
empty string, empty list and empty dict are falsy. -/
def isFalsy : JVal → Bool
  | JVal.jnull => true
  | JVal.jnum q => q == 0
  | JVal.jstr s => s == ""
  | JVal.jlist [] => true
  | JVal.jlist (_ :: _) => false
  | JVal.jobj [] => true
  | JVal.jobj (_ :: _) => false

/-- A JSON value usable as a Python number (`TypeError` otherwise). -/
def asNum : JVal → Option ℚ
  | JVal.jnum q => some q
  | _ => none

/-- The tuple unpacking `ymin, xmin, ymax, xmax = box_2d` followed by the
four arithmetic scalings in `crop_image_section`: any value that is not a
list of exactly four numbers raises (`ValueError`/`TypeError`), which the
surrounding `try`/`except` turns into `None`; `box4` returns `none` for
exactly those values. -/
def box4 (v : JVal) : Option (ℚ × ℚ × ℚ × ℚ) :=
  match v with
  | JVal.jlist [a, b, c, d] =>
      match asNum a, asNum b, asNum c, asNum d with
      | some ymin, some xmin, some ymax, some xmax => some (ymin, xmin, ymax, xmax)
      | _, _, _, _ => none
  | _ => none

/-- A PIL image: its size (`pil_image.size`) plus an abstract pixel grid
standing for the image contents. -/
structure PILImage where
  width : ℕ
  height : ℕ
  pixel : ℕ → ℕ → ℕ

/-- The pixel rectangle `(left, top, right, bottom)` passed to
`pil_image.crop`. -/
structure PixelRect where
  left : ℚ
  top : ℚ
  right : ℚ
  bottom : ℚ
deriving DecidableEq, Repr

/-- `crop_image_section(pil_image, box_2d)` from `app.py` (lines 74-100),
returning the crop rectangle handed to `pil_image.crop`, or `none` when
the Python function returns `None` (falsy box, malformed box caught by the
`except`, or degenerate rectangle after clamping). -/
def crop_image_section (pil_image : PILImage) (box_2d : JVal) : Option PixelRect :=
  if isFalsy box_2d then none
  else
    match box4 box_2d with
    | none => none
    | some (ymin, xmin, ymax, xmax) =>
        let width : ℚ := pil_image.width
        let height : ℚ := pil_image.height
        let left := xmin / 1000 * width
        let top := ymin / 1000 * height
        let right := xmax / 1000 * width
        let bottom := ymax / 1000 * height
        let left := max 0 left
        let top := max 0 top
        let right := min width right
        let bottom := min height bottom
        if right ≤ left ∨ bottom ≤ top then none
        else some ⟨left, top, right, bottom⟩

/-- Python `dict.get` on an object built by `json.loads`; with duplicate
keys in the JSON text, `json.loads` keeps the last occurrence, so lookup
is last-wins. -/
def lookupField (fields : List (String × JVal)) (key : String) : Option JVal :=
  match fields with
  | [] => none
  | (k, v) :: rest =>
      match lookupField rest key with
      | some w => some w
      | none => if k == key then some v else none

/-- The test `s.get("type") == kind` from the two list comprehensions at
lines 191-192 of `app.py` (over dict elements; Python `==` between a
non-string and a string is `False`). -/
def typeIs (kind : String) (s : JVal) : Bool :=
  match s with
  | JVal.jobj fields =>
      match lookupField fields "type" with
      | some (JVal.jstr t) => t == kind
      | _ => false
  | _ => false

/-- `news_sections = [s for s in sections if s.get("type") == "news"]`. -/
def news_sections (sections : List JVal) : List JVal :=
  sections.filter (typeIs "news")

/-- `image_sections = [s for s in sections if s.get("type") == "image"]`. -/
def image_sections (sections : List JVal) : List JVal :=
  sections.filter (typeIs "image")

/-- The order in which sections are processed and emitted by the rendering
code of `app.py` (lines 197-257): the whole news loop first, then the
whole image-gallery loop. -/
def renderedSections (sections : List JVal) : List JVal :=
  news_sections sections ++ image_sections sections

/-- Whether a JSON value answers Python attribute access `.get` (only
dicts do; anything else raises `AttributeError`). -/
def isObj : JVal → Bool
  | JVal.jobj _ => true
  | _ => false

/-- Python iteration `for s in sections` over a JSON value: lists yield
their elements, strings their characters (as 1-character strings), dicts
their keys; `None` and numbers raise `TypeError` (`none` here). -/
def iterElems : JVal → Option (List JVal)
  | JVal.jlist xs => some xs
  | JVal.jstr s => some (s.data.map fun c => JVal.jstr (String.mk [c]))
  | JVal.jobj fields => some (fields.map fun kv => JVal.jstr kv.fst)
  | _ => none

/-- The oracle text returned by `process_with_gemini` together with its
`json.loads` result: `parsed = none` models `json.JSONDecodeError` being
raised on `raw`. -/
structure OracleResponse where
  raw : String
  parsed : Option JVal

/-- What a successfully processed document displays: the publication date
(line 186) and the partitioned section lists (lines 191-192). -/
structure DocReport where
  date : JVal
  news : List JVal
  image : List JVal

/-- Outcome recorded for one document: rendered report, or the `st.error`
message of the `except` branch that caught the exception. -/
inductive DocStatus where
  | ok (report : DocReport) : DocStatus
  | failed (msg : String) : DocStatus

/-- `True` exactly on successfully processed documents. -/
def DocStatus.isOk : DocStatus → Bool
  | DocStatus.ok _ => true
  | DocStatus.failed _ => false

/-- The fixed message of the `json.JSONDecodeError` handler (line 270). -/
def jsonDecodeErrorMsg : String := "解析失敗，AI 回傳格式不正確。"

/-- The generic handler at line 272 renders the exception: the argument
stands for the text of the Python exception object. -/
def runtimeErrorMsg (e : String) : String := "發生錯誤: " ++ e

/-- Processing of one oracle response inside the `try` block (lines
184-267): `json.loads`, date and sections defaults via `data.get`,
partition of the sections, rendering.  A `JSONDecodeError` hits the
handler at line 269; any other exception (attribute access `.get` on a
non-dict, iterating a non-iterable `sections` value) hits the generic
handler at line 271. -/
def handleResponse (r : OracleResponse) : DocStatus :=
  match r.parsed with
  | none => DocStatus.failed jsonDecodeErrorMsg
  | some (JVal.jobj fields) =>
      let dateV := (lookupField fields "date").getD (JVal.jstr "未知")
      let sectionsV := (lookupField fields "sections").getD (JVal.jlist [])
      match iterElems sectionsV with
      | none => DocStatus.failed (runtimeErrorMsg "TypeError")
      | some elems =>
          if elems.all isObj then
            DocStatus.ok ⟨dateV, news_sections elems, image_sections elems⟩
          else DocStatus.failed (runtimeErrorMsg "AttributeError")
  | some _ => DocStatus.failed (runtimeErrorMsg "AttributeError")

/-- One element of `uploaded_files`: its name, whether `Image.open`
succeeds on its bytes (line 179), and the oracle response obtained for
it.  `process_with_gemini` never raises: its own `try`/`except` turns
oracle failures into an `Error: ...` string (lines 155-162). -/
structure UploadedFile where
  name : String
  decodeOk : Bool
  response : OracleResponse

/-- Message of the `PIL.UnidentifiedImageError` escaping `Image.open`. -/
def decodeErrorMsg (name : String) : String :=
  "cannot identify image file " ++ name

/-- The main loop of `app.py` (lines 175-274): documents are processed in
order; `Image.open` at line 179 sits outside the `try` block, so a decode
failure propagates and aborts the whole run (second component `some msg`),
leaving later files unprocessed; every failure inside the `try` block is
recorded for that document and the loop continues. -/
def runBatch : List UploadedFile → List (String × DocStatus) × Option String
  | [] => ([], none)
  | f :: rest =>
      if f.decodeOk then
        let s := handleResponse f.response
        let (tail, abort) := runBatch rest
        ((f.name, s) :: tail, abort)
      else ([], some (decodeErrorMsg f.name))

/-- Substring test on character lists (used to express "the raw text is
surfaced in the status message"). -/
def charsContain (hay pat : List Char) : Bool :=
  (List.range (hay.length + 1)).any fun i => ((hay.drop i).take pat.length) == pat

/-- A 2000×3000 pixel page image (the size used in the end-to-end
scenario of the specification). -/
def pageImage : PILImage := ⟨2000, 3000, fun _ _ => 0⟩

/-- The relative box `box_2d = [920, 100, 980, 900]` of the scenario. -/
def scenarioBox : JVal :=
  JVal.jlist [JVal.jnum 920, JVal.jnum 100, JVal.jnum 980, JVal.jnum 900]

/-- C5 (corrected): on the 2000×3000 image, box `[920,100,980,900]`
normalizes to the pixel rectangle x from 200 to 1800 (not 20 to 1800 as
the claim states) and y from 2760 to 2940. -/
theorem c5_scenario_crop_region :
    crop_image_section pageImage scenarioBox = some ⟨200, 2760, 1800, 2940⟩ := by
  simp [pageImage, scenarioBox, crop_image_section, box4, asNum, isFalsy]
  norm_num

/-- C5 counterexample: the crop region claimed by the specification,
x from 20 to 1800 and y from 2760 to 2940, is not what
`crop_image_section` computes on the 2000×3000 image: the left edge is
200, not 20. -/
theorem c5_counterexample :
    crop_image_section pageImage scenarioBox ≠ some ⟨20, 2760, 1800, 2940⟩ := by
  simp [pageImage, scenarioBox, crop_image_section, box4, asNum, isFalsy]
  norm_num

/-- The result of a normalization is present and lies inside the
`[0,width] × [0,height]` pixel space, with a non-degenerate rectangle. -/
def rectInBounds (w h : ℚ) : Option PixelRect → Prop
  | none => False
  | some r =>
      0 ≤ r.left ∧ r.left < r.right ∧ r.right ≤ w
        ∧ 0 ≤ r.top ∧ r.top < r.bottom ∧ r.bottom ≤ h

/-- C6 (confirmed): for every image with positive width and height and
every box `[ymin, xmin, ymax, xmax]` with all coordinates in `[0,1000]`,
`ymin < ymax` and `xmin < xmax`, `crop_image_section` does not return
`none`, and the resulting pixel rectangle satisfies
`0 ≤ left < right ≤ width` and `0 ≤ top < bottom ≤ height`. -/
theorem c6_normalize_in_bounds (img : PILImage)
    (hw : 0 < img.width) (hh : 0 < img.height)
    (ymin xmin ymax xmax : ℚ)
    (hy0 : 0 ≤ ymin) (hy1 : ymax ≤ 1000) (hyo : ymin < ymax)
    (hx0 : 0 ≤ xmin) (hx1 : xmax ≤ 1000) (hxo : xmin < xmax) :
    rectInBounds (img.width : ℚ) (img.height : ℚ)
      (crop_image_section img
        (JVal.jlist [JVal.jnum ymin, JVal.jnum xmin, JVal.jnum ymax, JVal.jnum xmax])) := by
  have hw' : (0:ℚ) < (img.width : ℚ) := by exact_mod_cast hw
  have hh' : (0:ℚ) < (img.height : ℚ) := by exact_mod_cast hh
  have hxl : (0:ℚ) ≤ xmin / 1000 * (img.width : ℚ) :=
    mul_nonneg (div_nonneg hx0 (by norm_num)) hw'.le
  have hyl : (0:ℚ) ≤ ymin / 1000 * (img.height : ℚ) :=
    mul_nonneg (div_nonneg hy0 (by norm_num)) hh'.le
  have hxr : xmax / 1000 * (img.width : ℚ) ≤ (img.width : ℚ) := by
    have h1 : xmax / 1000 ≤ 1 := by
      rw [div_le_one (by norm_num : (0:ℚ) < 1000)]; exact hx1
    calc xmax / 1000 * (img.width : ℚ) ≤ 1 * (img.width : ℚ) :=
          mul_le_mul_of_nonneg_right h1 hw'.le
      _ = (img.width : ℚ) := one_mul _
  have hyr : ymax / 1000 * (img.height : ℚ) ≤ (img.height : ℚ) := by
    have h1 : ymax / 1000 ≤ 1 := by
      rw [div_le_one (by norm_num : (0:ℚ) < 1000)]; exact hy1
    calc ymax / 1000 * (img.height : ℚ) ≤ 1 * (img.height : ℚ) :=
          mul_le_mul_of_nonneg_right h1 hh'.le
      _ = (img.height : ℚ) := one_mul _
  have hxlt : xmin / 1000 * (img.width : ℚ) < xmax / 1000 * (img.width : ℚ) := by
    have h1 : xmin / 1000 < xmax / 1000 := by gcongr
    exact mul_lt_mul_of_pos_right h1 hw'
  have hylt : ymin / 1000 * (img.height : ℚ) < ymax / 1000 * (img.height : ℚ) := by
    have h1 : ymin / 1000 < ymax / 1000 := by gcongr
    exact mul_lt_mul_of_pos_right h1 hh'
  have hcrop : crop_image_section img
      (JVal.jlist [JVal.jnum ymin, JVal.jnum xmin, JVal.jnum ymax, JVal.jnum xmax])
      = some ⟨max 0 (xmin / 1000 * (img.width : ℚ)), max 0 (ymin / 1000 * (img.height : ℚ)),
          min (img.width : ℚ) (xmax / 1000 * (img.width : ℚ)),
          min (img.height : ℚ) (ymax / 1000 * (img.height : ℚ))⟩ := by
    simp only [crop_image_section, box4, asNum, isFalsy]
    rw [if_neg (fun h => Bool.noConfusion h)]
    have hcond : ¬((img.width : ℚ) ⊓ (xmax / 1000 * (img.width : ℚ)) ≤ 0 ⊔ (xmin / 1000 * (img.width : ℚ))
        ∨ (img.height : ℚ) ⊓ (ymax / 1000 * (img.height : ℚ)) ≤ 0 ⊔ (ymin / 1000 * (img.height : ℚ))) := by
      push_neg
      constructor
      · rw [max_eq_right hxl, min_eq_right hxr]; exact hxlt
      · rw [max_eq_right hyl, min_eq_right hyr]; exact hylt
    rw [if_neg hcond]
  rw [hcrop]
  exact ⟨le_max_left 0 _,
    by rw [max_eq_right hxl, min_eq_right hxr]; exact hxlt,
    min_le_left _ _,
    le_max_left 0 _,
    by rw [max_eq_right hyl, min_eq_right hyr]; exact hylt,
    min_le_left _ _⟩

/-- C6 witness: the scenario news box `[100, 50, 900, 950]` on the
2000×3000 page yields an in-bounds, non-degenerate rectangle. -/
theorem c6_witness :
    rectInBounds (pageImage.width : ℚ) (pageImage.height : ℚ)
      (crop_image_section pageImage
        (JVal.jlist [JVal.jnum 100, JVal.jnum 50, JVal.jnum 900, JVal.jnum 950])) :=
  c6_normalize_in_bounds pageImage (by norm_num [pageImage]) (by norm_num [pageImage])
    100 50 900 950 (by norm_num) (by norm_num) (by norm_num)
    (by norm_num) (by norm_num) (by norm_num)

/-- C7 (confirmed): whenever scaling and clamping makes the rectangle
degenerate (`right ≤ left` or `bottom ≤ top`), and whenever the box is
missing (falsy `None`) or has the wrong arity, `crop_image_section`
returns `none`; in particular box `[500,500,500,900]` yields `none` on
any image. -/
theorem c7_degenerate_or_malformed_absent (img : PILImage) (ymin xmin ymax xmax : ℚ)
    (hdeg : (img.width : ℚ) ⊓ (xmax / 1000 * (img.width : ℚ)) ≤ 0 ⊔ (xmin / 1000 * (img.width : ℚ))
      ∨ (img.height : ℚ) ⊓ (ymax / 1000 * (img.height : ℚ)) ≤ 0 ⊔ (ymin / 1000 * (img.height : ℚ))) :
    crop_image_section img
        (JVal.jlist [JVal.jnum ymin, JVal.jnum xmin, JVal.jnum ymax, JVal.jnum xmax]) = none
      ∧ crop_image_section img
          (JVal.jlist [JVal.jnum 500, JVal.jnum 500, JVal.jnum 500, JVal.jnum 900]) = none
      ∧ crop_image_section img JVal.jnull = none
      ∧ ∀ l : List JVal, l.length ≠ 4 → crop_image_section img (JVal.jlist l) = none := by
  refine ⟨?_, ?_, rfl, ?_⟩
  · simp only [crop_image_section, box4, asNum, isFalsy]
    rw [if_neg (fun h => Bool.noConfusion h), if_pos hdeg]
  · simp only [crop_image_section, box4, asNum, isFalsy]
    rw [if_neg (fun h => Bool.noConfusion h)]
    have hcond : (img.height : ℚ) ⊓ ((500:ℚ) / 1000 * (img.height : ℚ))
        ≤ 0 ⊔ ((500:ℚ) / 1000 * (img.height : ℚ)) :=
      le_trans (min_le_right _ _) (le_max_right _ _)
    rw [if_pos (Or.inr hcond)]
  · intro l hl
    rcases l with _ | ⟨a, _ | ⟨b, _ | ⟨c, _ | ⟨d, _ | ⟨e, t⟩⟩⟩⟩⟩
    · rfl
    · simp [crop_image_section, box4, isFalsy]
    · simp [crop_image_section, box4, isFalsy]
    · simp [crop_image_section, box4, isFalsy]
    · exact absurd rfl hl
    · simp [crop_image_section, box4, isFalsy]

/-- C7 witness: the inverted box `[980, 100, 920, 900]` (top below
bottom after clamping) on the 2000×3000 page yields `none`. -/
theorem c7_witness :
    crop_image_section pageImage
      (JVal.jlist [JVal.jnum 980, JVal.jnum 100, JVal.jnum 920, JVal.jnum 900]) = none :=
  (c7_degenerate_or_malformed_absent pageImage 980 100 920 900 (by norm_num [pageImage])).1

/-- C8 (confirmed): `crop_image_section` is a total function (no
exception escapes: the embedding of the `try`/`except` block is the
`box4` check), and every box value on which the Python body would raise —
non-list values, lists of the wrong arity, non-numeric entries — is
converted to `none`. -/
theorem c8_internal_error_absent (img : PILImage) (box : JVal)
    (h : box4 box = none) :
    crop_image_section img box = none := by
  simp only [crop_image_section, h]
  split <;> rfl

/-- C8 witness: a string box value (non-list) is converted to `none`. -/
theorem c8_witness :
    box4 (JVal.jstr "not a box") = none
      ∧ crop_image_section pageImage (JVal.jstr "not a box") = none :=
  ⟨rfl, c8_internal_error_absent pageImage (JVal.jstr "not a box") rfl⟩

/-- C10 (confirmed): `crop_image_section` is deterministic — equal image
contents (size and pixel grid) and equal box values give equal results;
the function reads no state beyond its two arguments. -/
theorem c10_crop_deterministic (img1 img2 : PILImage) (box1 box2 : JVal)
    (himg : img1 = img2) (hbox : box1 = box2) :
    crop_image_section img1 box1 = crop_image_section img2 box2 := by
  rw [himg, hbox]

/-- C10 witness: two calls on the scenario image and box agree. -/
theorem c10_witness :
    crop_image_section pageImage scenarioBox = crop_image_section pageImage scenarioBox :=
  c10_crop_deterministic pageImage pageImage scenarioBox scenarioBox rfl rfl

/-- An upload whose bytes are not a readable image: `Image.open` raises. -/
def badFile : UploadedFile := ⟨"bad.jpg", false, ⟨"", none⟩⟩

/-- An upload that decodes and whose oracle response is the empty JSON
object. -/
def okFile : UploadedFile := ⟨"page1.jpg", true, ⟨"\x7b\x7d", some (JVal.jobj [])⟩⟩

/-- An upload that decodes but whose oracle response is not valid JSON
(for example the `Error: ...` string produced when the oracle call
fails). -/
def malformedFile : UploadedFile := ⟨"page2.jpg", true, ⟨"Error: quota", none⟩⟩

/-- C1 counterexample: a batch containing a single document whose image
bytes cannot be decoded aborts the whole run (second component of
`runBatch` is an escaped exception) and records no status for the
document, contradicting the claim that any exception at any stage is
caught and the batch never aborts. -/
theorem c1_counterexample :
    ¬((runBatch [badFile]).2 = none ∧ (runBatch [badFile]).1.length = 1) := by
  simp [runBatch, badFile]

/-- C1 (corrected): failure isolation holds for every stage after image
decoding — if every file in the batch decodes, then no exception escapes,
each document gets exactly one recorded status computed from that
document alone (so a malformed response fails only its own document), and
the batch never aborts; an image decode failure, however, is raised
outside the `try` block and aborts the batch. -/
theorem c1_amended_failure_isolation (files : List UploadedFile)
    (h : ∀ f ∈ files, f.decodeOk = true) :
    runBatch files = (files.map fun f => (f.name, handleResponse f.response), none) := by
  induction files with
  | nil => rfl
  | cons f rest ih =>
      have hf : f.decodeOk = true := h f (List.mem_cons_self f rest)
      have hr : ∀ g ∈ rest, g.decodeOk = true :=
        fun g hg => h g (List.mem_cons_of_mem f hg)
      simp [runBatch, hf, ih hr]

/-- C1 witness: a two-document batch whose second document has a
malformed oracle response completes without aborting; the second document
alone is recorded as failed. -/
theorem c1_witness :
    runBatch [okFile, malformedFile]
      = ([("page1.jpg", DocStatus.ok ⟨JVal.jstr "未知", [], []⟩),
          ("page2.jpg", DocStatus.failed jsonDecodeErrorMsg)], none) := by
  have h := c1_amended_failure_isolation [okFile, malformedFile]
    (by intro f hf; fin_cases hf <;> rfl)
  simpa [okFile, malformedFile, handleResponse, lookupField, iterElems,
    news_sections, image_sections] using h

/-- A raw section record with the news discriminator. -/
def newsSec : JVal := JVal.jobj [("type", JVal.jstr "news")]

/-- A raw section record with the image discriminator. -/
def imgSec : JVal := JVal.jobj [("type", JVal.jstr "image")]

/-- A raw section record with an unrecognized discriminator. -/
def graphSec : JVal := JVal.jobj [("type", JVal.jstr "graph")]

/-- No section is both a news section and an image section: the
discriminator is a single value, and it cannot equal both strings. -/
theorem typeIs_disjoint (s : JVal) :
    ¬(typeIs "news" s = true ∧ typeIs "image" s = true) := by
  rintro ⟨h1, h2⟩
  rcases s with _ | q | str | elems | fields
  · exact Bool.noConfusion h1
  · exact Bool.noConfusion h1
  · exact Bool.noConfusion h1
  · exact Bool.noConfusion h1
  · simp only [typeIs] at h1 h2
    rcases hval : lookupField fields "type" with _ | v
    · rw [hval] at h1
      exact Bool.noConfusion h1
    · rw [hval] at h1 h2
      rcases v with _ | q | t | elems2 | fields2
      · exact Bool.noConfusion h1
      · exact Bool.noConfusion h1
      · have e1 : t = "news" := by simpa using h1
        have e2 : t = "image" := by simpa using h2
        rw [e1] at e2
        exact absurd e2 (by decide)
      · exact Bool.noConfusion h1
      · exact Bool.noConfusion h1

/-- For disjoint predicates, filtering twice and appending is a
permutation of filtering by the disjunction. -/
theorem filter_disjoint_append_perm {α : Type} (p q : α → Bool)
    (hdisj : ∀ a, ¬(p a = true ∧ q a = true)) (l : List α) :
    (l.filter p ++ l.filter q).Perm (l.filter fun a => p a || q a) := by
  induction l with
  | nil => simp
  | cons a t ih =>
      cases hp : p a <;> cases hq : q a
      · simpa [List.filter_cons, hp, hq] using ih
      · simp only [List.filter_cons, hp, hq, Bool.false_or, cond_true, cond_false]
        exact List.perm_middle.trans (ih.cons a)
      · simp only [List.filter_cons, hp, hq, Bool.true_or, cond_true, cond_false,
          List.cons_append]
        exact ih.cons a
      · exact absurd ⟨hp, hq⟩ (hdisj a)

/-- C2 counterexample: in a document whose oracle section list is
`[image, news]` the rendering emits the news section first, so the pair's
original order is not preserved across kinds. -/
theorem c2_counterexample :
    renderedSections [imgSec, newsSec]
      ≠ ([imgSec, newsSec] : List JVal).filter
          (fun s => typeIs "news" s || typeIs "image" s) := by
  intro h
  have h0 := congrArg (List.map (typeIs "news")) h
  have h1 : List.map (typeIs "news") (renderedSections [imgSec, newsSec])
      = [true, false] := rfl
  have h2 : List.map (typeIs "news")
      (([imgSec, newsSec] : List JVal).filter
        fun s => typeIs "news" s || typeIs "image" s)
      = [false, true] := rfl
  rw [h1, h2] at h0
  exact absurd h0 (by decide)

/-- C2 (corrected): the oracle's original order is preserved only within
each section kind — the emitted news subsequence and the emitted image
subsequence are each sublists of the oracle's list, and the emitted
sections are exactly the recognized ones — but all news sections are
emitted before all image sections, so a cross-kind pair in which an image
section comes first is reordered. -/
theorem c2_amended_order_within_kind (sections : List JVal) :
    renderedSections sections = news_sections sections ++ image_sections sections
      ∧ (news_sections sections).Sublist sections
      ∧ (image_sections sections).Sublist sections
      ∧ (renderedSections sections).Perm
          (sections.filter fun s => typeIs "news" s || typeIs "image" s) :=
  ⟨rfl, List.filter_sublist sections, List.filter_sublist sections,
    filter_disjoint_append_perm (typeIs "news") (typeIs "image") typeIs_disjoint sections⟩

/-- C3 counterexample: a single raw record with the unrecognized
discriminator `"graph"` is dropped by both comprehensions, so the number
of parsed sections (0) is not the number of raw records (1). -/
theorem c3_counterexample :
    (news_sections [graphSec]).length + (image_sections [graphSec]).length
      ≠ ([graphSec] : List JVal).length := by
  decide

/-- C3 (corrected): a raw record whose discriminator is neither `"news"`
nor `"image"` is dropped, not kept as an image section: it belongs to
neither partition, and the total number of partitioned sections equals
the number of recognized records only. -/
theorem c3_amended_unrecognized_dropped (sections : List JVal) :
    (news_sections sections).length + (image_sections sections).length
        = (sections.filter fun s => typeIs "news" s || typeIs "image" s).length
      ∧ ∀ s ∈ sections, typeIs "news" s = false → typeIs "image" s = false →
          s ∉ news_sections sections ∧ s ∉ image_sections sections := by
  constructor
  · have hperm := filter_disjoint_append_perm (typeIs "news") (typeIs "image")
      typeIs_disjoint sections
    have hlen := hperm.length_eq
    simpa [news_sections, image_sections, List.length_append] using hlen
  · intro s hs hn hi
    constructor
    · intro hmem
      have hm : s ∈ sections.filter (typeIs "news") := hmem
      have := (List.mem_filter.mp hm).2
      rw [hn] at this
      exact Bool.noConfusion this
    · intro hmem
      have hm : s ∈ sections.filter (typeIs "image") := hmem
      have := (List.mem_filter.mp hm).2
      rw [hi] at this
      exact Bool.noConfusion this

/-- C3 witness: the `"graph"` record is in neither partition. -/
theorem c3_witness :
    graphSec ∉ news_sections [graphSec] ∧ graphSec ∉ image_sections [graphSec] :=
  (c3_amended_unrecognized_dropped [graphSec]).2 graphSec
    (List.mem_singleton.mpr rfl) rfl rfl

/-- A raw oracle text that is not valid JSON (the shape produced when the
oracle call itself failed). -/
def malformedRaw : String := "Error: 429 quota exceeded"

/-- C4 counterexample: on a malformed response the recorded status is the
fixed message of the `JSONDecodeError` handler, and the original raw text
does not occur in it — the raw text is not preserved in the status
report. -/
theorem c4_counterexample :
    handleResponse ⟨malformedRaw, none⟩ = DocStatus.failed jsonDecodeErrorMsg
      ∧ charsContain jsonDecodeErrorMsg.data malformedRaw.data = false :=
  ⟨rfl, by decide⟩

/-- C4 (corrected): a response that is not syntactically valid JSON does
fail the document, but the failure status carries a fixed diagnostic
message that is independent of the raw text; the raw text is not
surfaced. -/
theorem c4_amended_fixed_message (raw : String) :
    handleResponse ⟨raw, none⟩ = DocStatus.failed jsonDecodeErrorMsg := rfl

/-- A syntactically valid oracle response whose top level is a JSON
array, not an object. -/
def validNonObject : OracleResponse := ⟨"[1, 2]", some (JVal.jlist [JVal.jnum 1, JVal.jnum 2])⟩

/-- C9 counterexample: a syntactically valid response that is not a JSON
object fails (attribute access `data.get` raises), so it is not true that
every syntactically valid response parses successfully. -/
theorem c9_counterexample :
    validNonObject.parsed.isSome = true
      ∧ (handleResponse validNonObject).isOk = false :=
  ⟨rfl, rfl⟩

/-- C9 (corrected): for every response parsing to a JSON object whose
`sections` field is absent or a list of objects, processing succeeds:
the displayed date is the `date` field when present and the sentinel
`未知` when missing (`Option.getD`), and a missing `sections` field
defaults to the empty list, so missing optional fields never cause
failure; text that is not valid JSON is a hard failure with the fixed
message; but a syntactically valid response whose top level is not an
object fails rather than succeeding. -/
theorem c9_amended_defaults (raw bad : String) (fields : List (String × JVal))
    (xs : List JVal)
    (hs : (lookupField fields "sections").getD (JVal.jlist []) = JVal.jlist xs)
    (hobj : xs.all isObj = true) :
    handleResponse ⟨raw, some (JVal.jobj fields)⟩
        = DocStatus.ok ⟨(lookupField fields "date").getD (JVal.jstr "未知"),
            news_sections xs, image_sections xs⟩
      ∧ handleResponse ⟨bad, none⟩ = DocStatus.failed jsonDecodeErrorMsg := by
  constructor
  · simp only [handleResponse]
    rw [hs]
    simp [iterElems, hobj]
  · rfl

/-- C9 witness: the empty JSON object response succeeds with the default
date and empty section list; an invalid text fails. -/
theorem c9_witness :
    handleResponse ⟨"\x7b\x7d", some (JVal.jobj [])⟩ = DocStatus.ok ⟨JVal.jstr "未知", [], []⟩
      ∧ handleResponse ⟨"not json", none⟩ = DocStatus.failed jsonDecodeErrorMsg :=
  c9_amended_defaults "\x7b\x7d" "not json" [] [] rfl rfl
